import Mathlib

set_option maxRecDepth 8000

/- Shallow embedding of the WikiGPT question-answering pipeline from the
   server route module (registerRoutes and its helper functions
   generateWikipediaResponse, extractRelevantContent,
   generateConversationalResponse, detectQuestionType,
   makeContentConversational, generateNoResultResponse,
   attemptSpellCorrection, correctCommonMisspellings).
   External fetches are modelled by a deterministic oracle structure Wiki,
   and each call of Math.random by an explicit random source structure Rand.
   JavaScript strings are modelled as Lean String; helper functions work on
   the underlying character list by structural recursion so that concrete
   runs evaluate inside the kernel. JavaScript measures lengths in UTF-16
   code units while the model counts code points; the two agree on the
   ASCII data handled here. -/

/- JS sub.isPrefix-style test: is the first list an initial segment of the
   second one. -/
def isPrefixChars : List Char → List Char → Bool
  | [], _ => true
  | _ :: _, [] => false
  | a :: as, b :: bs => a == b && isPrefixChars as bs

/- JS String.includes: does the second list occur as a contiguous block of
   the first. -/
def isInfixChars (sub : List Char) : List Char → Bool
  | [] => sub.isEmpty
  | c :: cs => isPrefixChars sub (c :: cs) || isInfixChars sub cs

/- Suffix of the subject strictly after the first occurrence of sub, or
   none when sub does not occur. -/
def afterFirst (sub : List Char) : List Char → Option (List Char)
  | [] => if sub.isEmpty then some [] else none
  | c :: cs =>
    if isPrefixChars sub (c :: cs) then some ((c :: cs).drop sub.length)
    else afterFirst sub cs

/- JS String.split on a character class: every separator character produces
   a boundary and empty pieces are kept (they are discarded by the length
   filters at every call site, which also makes this coincide with the
   run-collapsing regex splits used in the source). -/
def splitAux (p : Char → Bool) : List Char → List (List Char)
  | [] => [[]]
  | c :: cs =>
    match splitAux p cs with
    | [] => [[]]
    | cur :: rest => if p c then [] :: cur :: rest else (c :: cur) :: rest

def strSplit (p : Char → Bool) (s : String) : List String :=
  (splitAux p s.data).map String.mk

def isWhite (c : Char) : Bool := c.isWhitespace

/- JS String.trim (ASCII whitespace). -/
def strTrim (s : String) : String :=
  String.mk (((s.data.dropWhile isWhite).reverse.dropWhile isWhite).reverse)

/- JS String.toLowerCase (ASCII). -/
def strToLower (s : String) : String := String.mk (s.data.map Char.toLower)

/- JS Array.join with a separator. -/
def strJoin (sep : String) : List String → String
  | [] => ""
  | [x] => x
  | x :: y :: rest => x ++ sep ++ strJoin sep (y :: rest)

def containsSubstr (s sub : String) : Bool := isInfixChars sub.data s.data

def strStartsWith (s pre : String) : Bool := isPrefixChars pre.data s.data

/- JS encodeURIComponent: unreserved characters pass through, everything
   else is percent-encoded per UTF-8 byte. -/
def hexDigitChar (n : Nat) : Char := Char.ofNat (if n < 10 then 48 + n else 55 + n)

def utf8Bytes (c : Char) : List Nat :=
  let n := c.toNat
  if n < 128 then [n]
  else if n < 2048 then [192 + n / 64, 128 + n % 64]
  else if n < 65536 then [224 + n / 4096, 128 + (n / 64) % 64, 128 + n % 64]
  else [240 + n / 262144, 128 + (n / 4096) % 64, 128 + (n / 64) % 64, 128 + n % 64]

def percentEncodeByte (b : Nat) : List Char :=
  [Char.ofNat 37, hexDigitChar (b / 16), hexDigitChar (b % 16)]

def isUnreservedURIChar (c : Char) : Bool :=
  c.isAlphanum || c = Char.ofNat 45 || c = Char.ofNat 95 || c = Char.ofNat 46 ||
  c = Char.ofNat 33 || c = Char.ofNat 126 || c = Char.ofNat 42 || c = Char.ofNat 39 ||
  c = Char.ofNat 40 || c = Char.ofNat 41

def encodeURIComponent (s : String) : String :=
  String.mk (s.data.foldr
    (fun c acc =>
      (if isUnreservedURIChar c then [c]
       else (utf8Bytes c).foldr (fun b a2 => percentEncodeByte b ++ a2) []) ++ acc)
    [])

/- Data model: the parsed shapes the route reads out of the external
   responses of the encyclopedia service. -/

/- One entry of data.query.search; only the title is consumed by the
   process endpoint. -/
structure SearchHit where
  title : String
  snippet : String
deriving DecidableEq

/- One entry of contentData.query.pages; a missing article is the page
   object keyed by the sentinel id -1, which carries no extract. -/
structure Page where
  pageid : Int
  title : String
  extract : Option String
  fullurl : Option String
deriving DecidableEq

/- A search fetch that completed with a parsed JSON body: ok mirrors
   response.ok, status mirrors response.status, results mirrors
   data.query.search or the empty default. -/
structure SearchResp where
  ok : Bool
  status : Nat
  results : List SearchHit
deriving DecidableEq

/- A content fetch that completed with a parsed JSON body; pages lists the
   page objects in Object.keys order, so pages.head? is the page the route
   reads. -/
structure ContentResp where
  ok : Bool
  status : Nat
  pages : List Page
deriving DecidableEq

/- Deterministic oracle for the external service. An .error value models a
   fetch or response.json call that throws (its message is the thrown
   error message); for the opensearch suggestion the payload is data[1][0]
   when present. -/
structure Wiki where
  searchFetch : String → Except String SearchResp
  suggestFetch : String → Except Unit (Option String)
  contentFetch : String → Except String ContentResp

/- Explicit random source: one field per Math.random call site, index
   arguments model Math.floor(Math.random() * n) results reduced mod n,
   Bool fields model threshold comparisons per sentence position. -/
structure RandSrc where
  introIdx : Nat
  conclusionIdx : Nat
  noResultIdx : Nat
  joinConnectorIdx : Nat
  sentConnector : Nat → Bool
  sentConnectorIdx : Nat → Nat
  sentEmph : Nat → Bool

/- Network requests issued by the process endpoint, in order. -/
inductive NetCall where
  | search (q : String)
  | suggest (q : String)
  | content (title : String)
deriving DecidableEq

/- The JSON payload shape the process endpoint sends back; processingTime
   (wall-clock) is not modelled. -/
structure AnswerResult where
  success : Bool
  response : Option String
  sources : Option (List String)
  error : Option String
deriving DecidableEq

/- Spelling/Fallback Resolver (correctCommonMisspellings and
   attemptSpellCorrection). -/

def isWordChar (c : Char) : Bool := c.isAlphanum || c = Char.ofNat 95

/- One position of the scan of a global, case-insensitive, whole-word
   regex: the key (k :: ks, already lowercase) matches at the head of l
   when the lowercased head segment equals it and both ends sit on a word
   boundary; prev is the subject character just before l (none at the
   start of the subject). -/
def condMatch (k : Char) (ks : List Char) (prev : Option Char) (l : List Char) : Bool :=
  ((l.take (ks.length + 1)).map Char.toLower == k :: ks)
  && (match prev with | none => true | some p => !isWordChar p)
  && (match l.drop (ks.length + 1) with | [] => true | d :: _ => !isWordChar d)

/- Scan testing whether the whole-word key occurs anywhere in the subject. -/
def hasWordAux (k : Char) (ks : List Char) : Option Char → List Char → Bool
  | _, [] => false
  | prev, c :: cs => condMatch k ks prev (c :: cs) || hasWordAux k ks (some c) cs

def hasWord (key s : String) : Bool :=
  match key.data with
  | [] => false
  | k :: ks => hasWordAux k ks none s.data

/- String.replace with a global whole-word regex: scan the subject left to
   right, replace each non-overlapping match, never rescan replacement
   text. The fuel argument starts at the subject length, which every
   recursive call strictly shrinks, so fuel never runs out; it only makes
   the recursion structural so that the kernel can evaluate it. -/
def replaceWordAux (k : Char) (ks value : List Char) : Nat → Option Char → List Char → List Char
  | 0, _, l => l
  | _ + 1, _, [] => []
  | fuel + 1, prev, c :: cs =>
    if condMatch k ks prev (c :: cs) then
      value ++ replaceWordAux k ks value fuel
        (some (((c :: cs).take (ks.length + 1)).getLastD c))
        ((c :: cs).drop (ks.length + 1))
    else
      c :: replaceWordAux k ks value fuel (some c) cs

def replaceWord (s key value : String) : String :=
  match key.data with
  | [] => s
  | k :: ks => String.mk (replaceWordAux k ks value.data s.data.length none s.data)

/- The static misspelling dictionary, in the insertion order of the source
   object literal (Object.entries order). -/
def corrections : List (String × String) := [
  ("phisics", "physics"),
  ("chemestry", "chemistry"),
  ("biology", "biology"),
  ("psycology", "psychology"),
  ("psichology", "psychology"),
  ("philosphy", "philosophy"),
  ("mathamatics", "mathematics"),
  ("algorythm", "algorithm"),
  ("artficial", "artificial"),
  ("inteligence", "intelligence"),
  ("quantem", "quantum"),
  ("quantam", "quantum"),
  ("histery", "history"),
  ("ancent", "ancient"),
  ("medeval", "medieval"),
  ("rennaissance", "renaissance"),
  ("napoleen", "napoleon"),
  ("shakespeare", "shakespeare"),
  ("einstien", "einstein"),
  ("davinci", "da vinci"),
  ("geograpy", "geography"),
  ("contry", "country"),
  ("counrty", "country"),
  ("mountian", "mountain"),
  ("oceean", "ocean"),
  ("desert", "desert"),
  ("forrest", "forest"),
  ("tecnology", "technology"),
  ("compuer", "computer"),
  ("programing", "programming"),
  ("sofware", "software"),
  ("hardwar", "hardware"),
  ("intrnet", "internet"),
  ("websit", "website"),
  ("becuase", "because"),
  ("recieve", "receive"),
  ("seperate", "separate"),
  ("definately", "definitely"),
  ("occured", "occurred"),
  ("begining", "beginning"),
  ("goverment", "government"),
  ("enviroment", "environment")]

def correctCommonMisspellings (query : String) : String :=
  corrections.foldl (fun corrected kv => replaceWord corrected kv.1 kv.2) (strToLower query)

/- attemptSpellCorrection with the opensearch call replaced by its oracle
   outcome: a thrown fetch is caught and yields the original query; a
   truthy first suggestion (non-empty string) is returned; otherwise the
   static dictionary is applied. -/
def attemptSpellCorrection (query : String) (upstream : Except Unit (Option String)) : String :=
  match upstream with
  | .error _ => query
  | .ok d =>
    match d with
    | some s => if s ≠ "" then s else correctCommonMisspellings query
    | none => correctCommonMisspellings query

/- Relevance Extractor (extractRelevantContent). -/

/- The question tokenization of extractRelevantContent: lowercase,
   whitespace split, keep words longer than 3 characters. -/
def queryWordsOf (question : String) : List String :=
  (strSplit isWhite (strToLower question)).filter (fun w => decide (w.length > 3))

/- One step of the forEach accumulation over query words. -/
def scoreStep (lowerParagraph : String) (score : Nat) (word : String) : Nat :=
  if containsSubstr lowerParagraph word then
    score + (if word.length > 3 then 2 else 1)
  else score

def paragraphScore (queryWords : List String) (paragraph : String) : Nat :=
  queryWords.foldl (scoreStep (strToLower paragraph)) 0

/- Stable insertion step for descending scores: an element passes over
   later elements of strictly greater score and stops before the first one
   of less-than-or-equal score. -/
def insertDesc (x : String × Nat) : List (String × Nat) → List (String × Nat)
  | [] => [x]
  | y :: ys => if x.2 ≥ y.2 then x :: y :: ys else y :: insertDesc x ys

/- Stable descending sort modelling Array.prototype.sort (stable per the
   language specification) with comparator (a, b) => b.score - a.score;
   the stable result is unique, so any stable algorithm reproduces it. -/
def sortDesc : List (String × Nat) → List (String × Nat)
  | [] => []
  | x :: xs => insertDesc x (sortDesc xs)

def extractRelevantContent (paragraphs : List String) (question : String) : String :=
  let queryWords := queryWordsOf question
  let scoredParagraphs := paragraphs.map
    (fun paragraph => (strTrim paragraph, paragraphScore queryWords paragraph))
  let sorted := sortDesc scoredParagraphs
  let selectedParagraphs := sorted.take 3
  match selectedParagraphs with
  | [] => strJoin "\n\n" (paragraphs.take 2)
  | top :: _ =>
    if top.2 = 0 then strJoin "\n\n" (paragraphs.take 2)
    else strJoin "\n\n" (selectedParagraphs.map (fun p => p.1))

/- Response Synthesizer (detectQuestionType, generateConversationalResponse,
   makeContentConversational, generateNoResultResponse,
   generateWikipediaResponse). -/

def detectQuestionType (question : String) : String :=
  let lowerQuestion := strToLower question
  if strStartsWith lowerQuestion "what" || containsSubstr lowerQuestion "what is" ||
     containsSubstr lowerQuestion "what are" then "what"
  else if strStartsWith lowerQuestion "how" || containsSubstr lowerQuestion "how does" ||
     containsSubstr lowerQuestion "how to" then "how"
  else if strStartsWith lowerQuestion "why" || containsSubstr lowerQuestion "why is" ||
     containsSubstr lowerQuestion "why does" then "why"
  else if strStartsWith lowerQuestion "when" || containsSubstr lowerQuestion "when did" ||
     containsSubstr lowerQuestion "when was" then "when"
  else if containsSubstr lowerQuestion "compare" || containsSubstr lowerQuestion "difference" ||
     containsSubstr lowerQuestion "vs" then "compare"
  else "general"

def conversationalIntros : List String := [
  "Great question! Let me tell you about",
  "I\x27d be happy to explain",
  "Here\x27s what I can share about",
  "That\x27s an interesting topic! From what I know,",
  "Let me break this down for you -",
  "This is a fascinating subject!"]

def conversationalConclusions : List String := [
  "\n\nHope this helps clarify things!",
  "\n\nPretty fascinating stuff, right?",
  "\n\nThere\x27s definitely more to explore on this topic!",
  "\n\nLet me know if you\x27d like to dive deeper into any aspect!",
  "\n\nThis is just scratching the surface - there\x27s so much more to discover!"]

def sentenceConnectors : List String := [
  "Essentially, ",
  "In simple terms, ",
  "Basically, ",
  "Put simply, ",
  "Here\x27s the thing - ",
  "What\x27s interesting is that "]

def joinConnectors : List String := [
  ". ",
  ". Additionally, ",
  ". Also, ",
  ". What\x27s more, ",
  ". Interestingly, "]

def makeContentConversational (content : String) (questionType : String) (r : RandSrc) : String :=
  let _ := questionType
  let sentences := (strSplit (fun c => c = Char.ofNat 46 || c = Char.ofNat 33 || c = Char.ofNat 63) content).filter
    (fun s => decide ((strTrim s).length > 10))
  let processedSentences := (sentences.take 4).enum.map (fun iv =>
    let sentence := strTrim iv.2
    let sentence :=
      if r.sentConnector iv.1 then
        sentenceConnectors.getD (r.sentConnectorIdx iv.1 % 6) "" ++ strToLower sentence
      else sentence
    let sentence :=
      if sentence.length > 100 && r.sentEmph iv.1 then "**" ++ sentence ++ "**"
      else sentence
    sentence)
  strJoin (joinConnectors.getD (r.joinConnectorIdx % 5) "") processedSentences

def generateConversationalResponse (question title content : String) (r : RandSrc) : String :=
  let questionType := detectQuestionType question
  let intro := conversationalIntros.getD (r.introIdx % 6) ""
  let response :=
    if questionType = "what" then intro ++ " **" ++ title ++ "**.\n\n"
    else if questionType = "how" then intro ++ " Here\x27s how " ++ strToLower title ++ " works:\n\n"
    else if questionType = "why" then intro ++ " The reasoning behind " ++ strToLower title ++ ":\n\n"
    else if questionType = "when" then intro ++ " Looking at the timeline of " ++ strToLower title ++ ":\n\n"
    else intro ++ " **" ++ title ++ "**:\n\n"
  let processedContent := makeContentConversational content questionType r
  let response := response ++ processedContent
  response ++ conversationalConclusions.getD (r.conclusionIdx % 5) ""

def generateNoResultResponse (question : String) (r : RandSrc) : String :=
  let encouragingResponses : List String := [
    "Hmm, I couldn\x27t find specific information about that topic on Wikipedia.",
    "That\x27s a tricky one! I wasn\x27t able to locate relevant Wikipedia articles for that question.",
    "Interesting question, but I\x27m having trouble finding Wikipedia content that matches what you\x27re looking for.",
    "I searched through Wikipedia but couldn\x27t find detailed information on that specific topic."]
  let response := encouragingResponses.getD (r.noResultIdx % 4) ""
  response ++
    "\n\n**Here are some ways we can try to get better results:**\n• Try rephrasing with different keywords or terms\n• Check if it might be a very recent topic (Wikipedia might not have coverage yet)\n• Consider asking about a broader or more general version of the topic\n• Make sure the topic has an established Wikipedia page\n\n**Your search:** " ++
    ("\"" ++ question ++ "\"") ++
    "\n\nFeel free to try asking in a different way - I\x27m here to help!"

/- article.fullurl with the wiki-link fallback built from the title
   (spaces to underscores, then encodeURIComponent); the empty string is
   falsy in JS, hence also falls back. -/
def articleUrl (a : Page) : String :=
  let fallback := "https://en.wikipedia.org/wiki/" ++
    encodeURIComponent (String.mk (a.title.data.map (fun c => if c = Char.ofNat 32 then Char.ofNat 95 else c)))
  match a.fullurl with
  | some u => if u = "" then fallback else u
  | none => fallback

/- The paragraph filter applied by generateWikipediaResponse before
   handing the extract to the Relevance Extractor. -/
def paragraphsOf (extract : String) : List String :=
  (strSplit (fun c => c = Char.ofNat 10) extract).filter (fun p => decide ((strTrim p).length > 50))

/- generateWikipediaResponse; the second component is a ghost observation
   recording the passage block selected by extractRelevantContent (none on
   the missing-article branch), used to state determinism of the passage
   selection; the first component is the response string of the source,
   with the incremental appends regrouped associatively (the conditional
   related-topics append becomes an append of the empty string when there
   is at most one search result), which leaves the string value unchanged.
   An absent article or an absent or empty extract (both falsy in JS)
   produce the no-result text. -/
def generateWikipediaResponseP (question : String) (article : Option Page)
    (searchResults : List SearchHit) (r : RandSrc) : String × Option String :=
  match article with
  | none => (generateNoResultResponse question r, none)
  | some a =>
    let extract := a.extract.getD ""
    if extract = "" then (generateNoResultResponse question r, none)
    else
      let title := a.title
      let url := articleUrl a
      let paragraphs := paragraphsOf extract
      let relevantContent := extractRelevantContent paragraphs question
      let conversationalResponse := generateConversationalResponse question title relevantContent r
      let sourcesSection := "**📚 Sources & Further Reading:**\n" ++
        ("• [" ++ title ++ " on Wikipedia](" ++ url ++ ")")
      let relatedSection :=
        if searchResults.length > 1 then
          "\n**🔗 You might also be interested in:** " ++
            strJoin ", " (((searchResults.drop 1).take 2).map (fun hit => hit.title))
        else ""
      let response := (conversationalResponse ++ "\n\n") ++ sourcesSection ++ ("\n" ++ relatedSection)
      (response, some relevantContent)

def generateWikipediaResponse (question : String) (article : Option Page)
    (searchResults : List SearchHit) (r : RandSrc) : String :=
  (generateWikipediaResponseP question article searchResults r).1

/- Ghost specification of the passage selection: what the second component
   of generateWikipediaResponseP computes, written without the random
   source. -/
def selectedPassage (question : String) (article : Option Page) : Option String :=
  match article with
  | none => none
  | some a =>
    let extract := a.extract.getD ""
    if extract = "" then none
    else some (extractRelevantContent (paragraphsOf extract) question)

/- Pipeline Orchestrator: the body of the POST /api/wikipedia/process
   handler. -/

/- Stand-in for the message of the ZodError thrown by schema parsing of
   the request body (the exact library text is not modelled). -/
def validationErrorMsg : String := "Validation failed"

/- Lines 109 to 129 of the route: original search, ok check, then the
   spell-corrected retry when the result list is empty. The retry response
   is taken without an ok check, exactly as in the source. Returns the
   resulting candidate list (or the thrown error message) together with
   the network calls issued. -/
def searchPhase (question : String) (w : Wiki) : Except String (List SearchHit) × List NetCall :=
  match w.searchFetch question with
  | .error e => (.error e, [.search question])
  | .ok resp =>
    if resp.ok = false then
      (.error ("Wikipedia search failed: " ++ toString resp.status), [.search question])
    else if resp.results.isEmpty then
      let corrected := attemptSpellCorrection question (w.suggestFetch question)
      if corrected ≠ question then
        match w.searchFetch corrected with
        | .error e => (.error e, [.search question, .suggest question, .search corrected])
        | .ok resp2 => (.ok resp2.results, [.search question, .suggest question, .search corrected])
      else
        (.ok resp.results, [.search question, .suggest question])
    else
      (.ok resp.results, [.search question])

/- The process endpoint. Any thrown error is caught and sent as a
   success=false payload. The third component is the ghost passage
   observation of generateWikipediaResponseP. -/
def processQuestionP (question : String) (w : Wiki) (r : RandSrc) :
    AnswerResult × List NetCall × Option String :=
  if question.length < 1 ∨ question.length > 1000 then
    (⟨false, none, none, some validationErrorMsg⟩, [], none)
  else
    match searchPhase question w with
    | (.error e, tr) => (⟨false, none, none, some e⟩, tr, none)
    | (.ok [], tr) =>
      (⟨true, some (generateNoResultResponse question r), some [], none⟩, tr, none)
    | (.ok (bestMatch :: rest), tr) =>
      match w.contentFetch bestMatch.title with
      | .error e => (⟨false, none, none, some e⟩, tr ++ [.content bestMatch.title], none)
      | .ok cresp =>
        if cresp.ok = false then
          (⟨false, none, none, some ("Wikipedia content fetch failed: " ++ toString cresp.status)⟩,
            tr ++ [.content bestMatch.title], none)
        else
          let article := cresp.pages.head?
          let rp := generateWikipediaResponseP question article (bestMatch :: rest) r
          (⟨true, some rp.1, some ((bestMatch :: rest).map (fun hit => hit.title)), none⟩,
            tr ++ [.content bestMatch.title], rp.2)

def processQuestion (question : String) (w : Wiki) (r : RandSrc) : AnswerResult × List NetCall :=
  ((processQuestionP question w r).1, (processQuestionP question w r).2.1)

/- Concrete fixtures used to instantiate the theorems below. -/

def rand0 : RandSrc := ⟨0, 0, 0, 0, fun _ => false, fun _ => 0, fun _ => false⟩

def hitAlpha : SearchHit := ⟨"Alpha", "alpha snippet"⟩

def hitBeta : SearchHit := ⟨"Beta", "beta snippet"⟩

def pageAlpha : Page :=
  ⟨101, "Alpha",
   some "Alpha is a concept that people study in many places around the world today.\nThe second paragraph talks about history and has plenty of characters in it.",
   some "https://en.wikipedia.org/wiki/Alpha"⟩

/- Page object returned for a missing article: sentinel page id -1 and no
   extract. -/
def pageMissing : Page := ⟨-1, "Alpha", none, none⟩

/- Oracle whose search always fails with a thrown error. -/
def wikiSearchThrows : Wiki :=
  ⟨fun _ => .error "search boom", fun _ => .ok none, fun _ => .error "unused"⟩

/- Oracle whose search resolves with a non-success status. -/
def wikiSearchBadStatus : Wiki :=
  ⟨fun _ => .ok ⟨false, 503, []⟩, fun _ => .ok none, fun _ => .error "unused"⟩

/- Oracle with one hit whose content fetch throws. -/
def wikiContentThrows : Wiki :=
  ⟨fun _ => .ok ⟨true, 200, [hitAlpha]⟩, fun _ => .ok none, fun _ => .error "content boom"⟩

/- Oracle with one hit whose content fetch resolves with a non-success
   status. -/
def wikiContentBadStatus : Wiki :=
  ⟨fun _ => .ok ⟨true, 200, [hitAlpha]⟩, fun _ => .ok none, fun _ => .ok ⟨false, 500, []⟩⟩

/- Oracle with one hit whose content fetch returns the sentinel missing
   page. -/
def wikiSentinel : Wiki :=
  ⟨fun _ => .ok ⟨true, 200, [hitAlpha]⟩, fun _ => .ok none, fun _ => .ok ⟨true, 200, [pageMissing]⟩⟩

/- Oracle with two hits and a fetched article. -/
def wikiTwoHits : Wiki :=
  ⟨fun _ => .ok ⟨true, 200, [hitAlpha, hitBeta]⟩, fun _ => .ok none,
   fun _ => .ok ⟨true, 200, [pageAlpha]⟩⟩

/- Oracle that finds nothing for any query (and suggests nothing). -/
def wikiEmpty : Wiki :=
  ⟨fun _ => .ok ⟨true, 200, []⟩, fun _ => .ok none, fun _ => .error "unused"⟩

/- Helper lemmas about the string utilities. -/

theorem strData_append (a b : String) : (a ++ b).data = a.data ++ b.data := by
  cases a; cases b; rfl

theorem strMk_data (s : String) : String.mk s.data = s := by
  cases s; rfl

theorem isPrefixChars_self_append (p t : List Char) : isPrefixChars p (p ++ t) = true := by
  induction p with
  | nil => rfl
  | cons a as ih => simp [isPrefixChars, ih]

theorem isInfixChars_append_of (m l x : List Char) (h : isInfixChars m l = true) :
    isInfixChars m (x ++ l) = true := by
  induction x with
  | nil => simpa using h
  | cons c cs ih => simp [isInfixChars, ih]

theorem isInfixChars_firstPart (m t : List Char) : isInfixChars m (m ++ t) = true := by
  cases m with
  | nil =>
    cases t with
    | nil => rfl
    | cons c cs => simp [isInfixChars, isPrefixChars]
  | cons a as => simp [isInfixChars, isPrefixChars, isPrefixChars_self_append]

theorem isInfixChars_middle (m x y : List Char) : isInfixChars m (x ++ (m ++ y)) = true :=
  isInfixChars_append_of m (m ++ y) x (isInfixChars_firstPart m y)

theorem containsSubstr_middle (pre mid post : String) :
    containsSubstr (pre ++ mid ++ post) mid = true := by
  unfold containsSubstr
  rw [strData_append, strData_append, List.append_assoc]
  exact isInfixChars_middle mid.data pre.data post.data

/- Helper lemmas about the whole-word replacement scan. -/

theorem replaceWordAux_no_match (k : Char) (ks value : List Char) (fuel : Nat)
    (prev : Option Char) (l : List Char) (h : hasWordAux k ks prev l = false) :
    replaceWordAux k ks value fuel prev l = l := by
  induction fuel generalizing prev l with
  | zero => rfl
  | succ fuel ih =>
    cases l with
    | nil => rfl
    | cons c cs =>
      rw [hasWordAux, Bool.or_eq_false_iff] at h
      rw [replaceWordAux, if_neg (by simp [h.1])]
      rw [ih (some c) cs h.2]

theorem replaceWord_no_match (s key value : String) (h : hasWord key s = false) :
    replaceWord s key value = s := by
  unfold replaceWord
  unfold hasWord at h
  cases hk : key.data with
  | nil => rfl
  | cons k ks =>
    rw [hk] at h
    dsimp only at h ⊢
    rw [replaceWordAux_no_match k ks value.data s.data.length none s.data h, strMk_data]

theorem foldl_replaceWord_id (L : List (String × String)) (s : String)
    (h : ∀ kv ∈ L, hasWord kv.1 s = false) :
    L.foldl (fun corrected kv => replaceWord corrected kv.1 kv.2) s = s := by
  induction L with
  | nil => rfl
  | cons kv rest ih =>
    rw [List.foldl_cons, replaceWord_no_match s kv.1 kv.2 (h kv (by simp))]
    exact ih (fun x hx => h x (by simp [hx]))

/- Helper lemmas about paragraph scoring. -/

theorem foldl_score_const (lp : String) (ws : List String) (acc : Nat)
    (h : ∀ w ∈ ws, containsSubstr lp w = false) :
    ws.foldl (scoreStep lp) acc = acc := by
  induction ws generalizing acc with
  | nil => rfl
  | cons w rest ih =>
    rw [List.foldl_cons]
    have hw := h w (by simp)
    rw [scoreStep, if_neg (by simp [hw])]
    exact ih acc (fun x hx => h x (by simp [hx]))

theorem foldl_score_two (lp : String) (ws : List String) (acc : Nat)
    (h : ∀ w ∈ ws, w.length > 3) :
    ws.foldl (scoreStep lp) acc =
      acc + 2 * (ws.filter (fun w => containsSubstr lp w)).length := by
  induction ws generalizing acc with
  | nil => simp
  | cons w rest ih
  => by_cases hc : containsSubstr lp w = true
     · rw [List.foldl_cons, scoreStep, if_pos hc, if_pos (h w (by simp)),
         ih (acc + 2) (fun x hx => h x (by simp [hx]))]
       simp [List.filter_cons, hc]
       omega
     · rw [List.foldl_cons, scoreStep, if_neg (by simp [hc]),
         ih acc (fun x hx => h x (by simp [hx]))]
       simp [List.filter_cons, hc]

/- Helper lemmas about the stable descending sort. -/

theorem mem_insertDesc (x y : String × Nat) (l : List (String × Nat))
    (hy : y ∈ insertDesc x l) : y = x ∨ y ∈ l := by
  induction l with
  | nil => simpa [insertDesc] using hy
  | cons z zs ih =>
    rw [insertDesc] at hy
    by_cases hcmp : x.2 ≥ z.2
    · rw [if_pos hcmp] at hy
      simpa using hy
    · rw [if_neg hcmp] at hy
      rcases List.mem_cons.mp hy with h1 | h1
      · right; simp [h1]
      · rcases ih h1 with h2 | h2
        · left; exact h2
        · right; simp [h2]

theorem mem_sortDesc (y : String × Nat) (l : List (String × Nat))
    (hy : y ∈ sortDesc l) : y ∈ l := by
  induction l with
  | nil => simp [sortDesc] at hy
  | cons z zs ih =>
    rw [sortDesc] at hy
    rcases mem_insertDesc z y (sortDesc zs) hy with h | h
    · simp [h]
    · simp [ih h]

/- Path lemmas for the search phase. -/

theorem searchPhase_direct (question : String) (w : Wiki) (resp : SearchResp)
    (hs : w.searchFetch question = .ok resp) (hok : resp.ok = true)
    (hne : resp.results ≠ []) :
    searchPhase question w = (.ok resp.results, [.search question]) := by
  unfold searchPhase
  rw [hs]
  simp [hok, List.isEmpty_iff, hne]

theorem searchPhase_noRetry (question : String) (w : Wiki) (resp : SearchResp)
    (hs : w.searchFetch question = .ok resp) (hok : resp.ok = true)
    (hempty : resp.results = [])
    (hcor : attemptSpellCorrection question (w.suggestFetch question) = question) :
    searchPhase question w = (.ok [], [.search question, .suggest question]) := by
  unfold searchPhase
  rw [hs]
  simp [hok, hempty, hcor]

theorem searchPhase_fallback (question : String) (w : Wiki) (resp resp2 : SearchResp)
    (hs : w.searchFetch question = .ok resp) (hok : resp.ok = true)
    (hempty : resp.results = [])
    (hcor : attemptSpellCorrection question (w.suggestFetch question) ≠ question)
    (hs2 : w.searchFetch (attemptSpellCorrection question (w.suggestFetch question)) = .ok resp2) :
    searchPhase question w = (.ok resp2.results,
      [.search question, .suggest question,
       .search (attemptSpellCorrection question (w.suggestFetch question))]) := by
  unfold searchPhase
  rw [hs]
  simp [hok, hempty, hcor, hs2]

/- Path lemmas for the process endpoint. -/

theorem processQuestionP_searchError (question : String) (w : Wiki) (r : RandSrc)
    (hlen : ¬(question.length < 1 ∨ question.length > 1000)) (e : String) (tr : List NetCall)
    (hsp : searchPhase question w = (.error e, tr)) :
    processQuestionP question w r = (⟨false, none, none, some e⟩, tr, none) := by
  unfold processQuestionP
  rw [if_neg hlen, hsp]

theorem processQuestionP_noResults (question : String) (w : Wiki) (r : RandSrc)
    (hlen : ¬(question.length < 1 ∨ question.length > 1000)) (tr : List NetCall)
    (hsp : searchPhase question w = (.ok [], tr)) :
    processQuestionP question w r =
      (⟨true, some (generateNoResultResponse question r), some [], none⟩, tr, none) := by
  unfold processQuestionP
  rw [if_neg hlen, hsp]

theorem processQuestionP_contentError (question : String) (w : Wiki) (r : RandSrc)
    (hlen : ¬(question.length < 1 ∨ question.length > 1000))
    (b : SearchHit) (rest : List SearchHit) (tr : List NetCall)
    (hsp : searchPhase question w = (.ok (b :: rest), tr))
    (e : String) (hc : w.contentFetch b.title = .error e) :
    processQuestionP question w r = (⟨false, none, none, some e⟩, tr ++ [.content b.title], none) := by
  unfold processQuestionP
  rw [if_neg hlen, hsp]
  dsimp only
  rw [hc]

theorem processQuestionP_contentBad (question : String) (w : Wiki) (r : RandSrc)
    (hlen : ¬(question.length < 1 ∨ question.length > 1000))
    (b : SearchHit) (rest : List SearchHit) (tr : List NetCall)
    (hsp : searchPhase question w = (.ok (b :: rest), tr))
    (cresp : ContentResp) (hc : w.contentFetch b.title = .ok cresp) (hok : cresp.ok = false) :
    processQuestionP question w r =
      (⟨false, none, none, some ("Wikipedia content fetch failed: " ++ toString cresp.status)⟩,
        tr ++ [.content b.title], none) := by
  unfold processQuestionP
  rw [if_neg hlen, hsp]
  dsimp only
  rw [hc]
  simp [hok]

theorem processQuestionP_okPath (question : String) (w : Wiki) (r : RandSrc)
    (hlen : ¬(question.length < 1 ∨ question.length > 1000))
    (b : SearchHit) (rest : List SearchHit) (tr : List NetCall)
    (hsp : searchPhase question w = (.ok (b :: rest), tr))
    (cresp : ContentResp) (hc : w.contentFetch b.title = .ok cresp) (hok : cresp.ok = true) :
    processQuestionP question w r =
      (⟨true, some (generateWikipediaResponseP question cresp.pages.head? (b :: rest) r).1,
        some ((b :: rest).map (fun hit => hit.title)), none⟩,
       tr ++ [.content b.title],
       (generateWikipediaResponseP question cresp.pages.head? (b :: rest) r).2) := by
  unfold processQuestionP
  rw [if_neg hlen, hsp]
  dsimp only
  rw [hc]
  simp [hok]

/- Lemmas about the synthesizer ghost observation. -/

theorem genP_snd (question : String) (article : Option Page) (s : List SearchHit) (r : RandSrc) :
    (generateWikipediaResponseP question article s r).2 = selectedPassage question article := by
  cases article with
  | none => rfl
  | some a =>
    unfold generateWikipediaResponseP selectedPassage
    by_cases h : a.extract.getD "" = ""
    · simp [h]
    · simp [h]

theorem genP_noExtract (question : String) (article : Option Page) (s : List SearchHit)
    (r : RandSrc) (h : (article.bind (fun p => p.extract)).getD "" = "") :
    generateWikipediaResponseP question article s r = (generateNoResultResponse question r, none) := by
  cases article with
  | none => rfl
  | some a =>
    unfold generateWikipediaResponseP
    have h2 : a.extract.getD "" = "" := h
    simp [h2]

/- The no-result text always quotes the submitted question back. -/

theorem generateNoResultResponse_contains (question : String) (r : RandSrc) :
    containsSubstr (generateNoResultResponse question r) ("\"" ++ question ++ "\"") = true := by
  unfold generateNoResultResponse
  exact containsSubstr_middle _ _ _

/-- C1: a question of length 0 or above 1000 characters is rejected with a
validation failure before any network call: the process endpoint returns a
success=false payload carrying the validation error and its network trace
is empty. -/
theorem processQuestion_validation (question : String) (w : Wiki) (r : RandSrc)
    (h : question.length = 0 ∨ question.length > 1000) :
    processQuestionP question w r = (⟨false, none, none, some validationErrorMsg⟩, [], none) := by
  unfold processQuestionP
  rw [if_pos]
  rcases h with h | h
  · exact Or.inl (by omega)
  · exact Or.inr h

/-- Witness for C1 at the empty question. -/
theorem processQuestion_validation_witness :
    processQuestionP "" wikiEmpty rand0 = (⟨false, none, none, some validationErrorMsg⟩, [], none) :=
  processQuestion_validation "" wikiEmpty rand0 (Or.inl rfl)

/-- C2: when the original search succeeds with zero candidates and the
fallback search (if one happens at all) also returns zero candidates, the
process endpoint answers success=true with an empty source list and a
response text that contains the submitted question quoted back verbatim. -/
theorem processQuestion_emptyBothSearches (question : String) (w : Wiki) (r : RandSrc)
    (hlen : 1 ≤ question.length ∧ question.length ≤ 1000)
    (resp : SearchResp) (hs : w.searchFetch question = .ok resp) (hok : resp.ok = true)
    (hempty : resp.results = [])
    (hfb : attemptSpellCorrection question (w.suggestFetch question) ≠ question →
      ∃ resp2, w.searchFetch (attemptSpellCorrection question (w.suggestFetch question)) = .ok resp2 ∧
        resp2.results = []) :
    (processQuestionP question w r).1.success = true ∧
    (processQuestionP question w r).1.sources = some [] ∧
    ∃ text, (processQuestionP question w r).1.response = some text ∧
      containsSubstr text ("\"" ++ question ++ "\"") = true := by
  have hlen' : ¬(question.length < 1 ∨ question.length > 1000) := by omega
  have hsp : ∃ tr, searchPhase question w = (.ok [], tr) := by
    by_cases hcor : attemptSpellCorrection question (w.suggestFetch question) = question
    · exact ⟨_, searchPhase_noRetry question w resp hs hok hempty hcor⟩
    · obtain ⟨resp2, hs2, h2e⟩ := hfb hcor
      have hres := searchPhase_fallback question w resp resp2 hs hok hempty hcor hs2
      rw [h2e] at hres
      exact ⟨_, hres⟩
  obtain ⟨tr, hsp⟩ := hsp
  rw [processQuestionP_noResults question w r hlen' tr hsp]
  exact ⟨rfl, rfl, generateNoResultResponse question r, rfl,
    generateNoResultResponse_contains question r⟩

/-- Witness for C2: a gibberish lowercase query for which the oracle finds
nothing and suggests nothing, so no fallback search happens. -/
theorem processQuestion_emptyBothSearches_witness :
    (processQuestionP "zzzz qqqq" wikiEmpty rand0).1.success = true ∧
    (processQuestionP "zzzz qqqq" wikiEmpty rand0).1.sources = some [] ∧
    ∃ text, (processQuestionP "zzzz qqqq" wikiEmpty rand0).1.response = some text ∧
      containsSubstr text ("\"" ++ "zzzz qqqq" ++ "\"") = true :=
  processQuestion_emptyBothSearches "zzzz qqqq" wikiEmpty rand0 (by decide)
    ⟨true, 200, []⟩ rfl rfl rfl (fun hcor => absurd (by decide) hcor)

/-- C7 counterexample: the query Hello World contains no dictionary
misspelling as a whole word (checked over every dictionary entry), the
upstream suggestion yields nothing, and yet the Resolver does not return
the query unchanged: it lowercases it. -/
theorem resolver_lowercases :
    corrections.all (fun kv => !(hasWord kv.1 "Hello World")) = true ∧
    attemptSpellCorrection "Hello World" (Except.ok none) = "hello world" ∧
    ("hello world" : String) ≠ "Hello World" := by
  exact ⟨by decide, by decide, by decide⟩

/-- C7 amended: when no dictionary key occurs as a whole word in the
lowercased query and the upstream suggestion yields nothing, the Resolver
returns the lowercased query (so the original query exactly when it is
already all lowercase); apart from lowercasing, unmapped words are left
untouched. -/
theorem resolver_noMatch_lower (query : String)
    (h : ∀ kv ∈ corrections, hasWord kv.1 (strToLower query) = false) :
    attemptSpellCorrection query (Except.ok none) = strToLower query := by
  unfold attemptSpellCorrection correctCommonMisspellings
  exact foldl_replaceWord_id corrections (strToLower query) h

/-- Witness for C7 amended at a mixed-case query without misspellings. -/
theorem resolver_noMatch_lower_witness :
    attemptSpellCorrection "Some Mixed Case" (Except.ok none) = strToLower "Some Mixed Case" :=
  resolver_noMatch_lower "Some Mixed Case" (by decide)

/-- C8 counterexample: when the upstream suggestion call throws, the
Resolver returns the original query as is; the dictionary is not applied,
so for the misspelling phisics the result differs from the
dictionary-corrected query physics. -/
theorem resolver_failure_not_corrected :
    attemptSpellCorrection "phisics" (Except.error ()) = "phisics" ∧
    correctCommonMisspellings "phisics" = "physics" ∧
    ("phisics" : String) ≠ "physics" := by
  exact ⟨by decide, by decide, by decide⟩

/-- C8 amended: a failing upstream suggestion call is swallowed and the
Resolver returns the original query unchanged, without applying the static
misspelling dictionary. -/
theorem resolver_failure_returns_query (query : String) (u : Unit) :
    attemptSpellCorrection query (Except.error u) = query := rfl

/-- C10: a paragraph score is exactly 2 points per occurrence (with
multiplicity in the tokenized question) of a question word of length
greater than 3 contained in the lowercased paragraph, hence always even. -/
theorem paragraphScore_even (question paragraph : String) :
    paragraphScore (queryWordsOf question) paragraph =
      2 * ((queryWordsOf question).filter
        (fun w => containsSubstr (strToLower paragraph) w)).length ∧
    paragraphScore (queryWordsOf question) paragraph % 2 = 0 := by
  have hlen : ∀ w ∈ queryWordsOf question, w.length > 3 := by
    intro w hw
    have hf := List.mem_filter.mp hw
    exact of_decide_eq_true hf.2
  have hval := foldl_score_two (strToLower paragraph) (queryWordsOf question) 0 hlen
  have hmain : paragraphScore (queryWordsOf question) paragraph =
      2 * ((queryWordsOf question).filter
        (fun w => containsSubstr (strToLower paragraph) w)).length := by
    unfold paragraphScore
    simpa using hval
  exact ⟨hmain, by rw [hmain]; simp [Nat.mul_mod_right]⟩

/-- C3: when some search call (the original one, or the fallback one after
an empty original result) produces a non-empty candidate list and the
content fetch for its top candidate succeeds, the sources of the answer
are exactly the titles of that candidate list in its original rank order. -/
theorem processQuestion_sourceTitles (question : String) (w : Wiki) (r : RandSrc)
    (hlen : 1 ≤ question.length ∧ question.length ≤ 1000)
    (resp : SearchResp) (hs : w.searchFetch question = .ok resp) (hok : resp.ok = true)
    (winner : List SearchHit) (b : SearchHit) (rest : List SearchHit) (hw : winner = b :: rest)
    (hcase : resp.results = winner ∨
      (resp.results = [] ∧ attemptSpellCorrection question (w.suggestFetch question) ≠ question ∧
       ∃ resp2, w.searchFetch (attemptSpellCorrection question (w.suggestFetch question)) = .ok resp2 ∧
         resp2.results = winner))
    (cresp : ContentResp) (hc : w.contentFetch b.title = .ok cresp) (hok2 : cresp.ok = true) :
    (processQuestionP question w r).1.sources = some (winner.map (fun hit => hit.title)) ∧
    (processQuestionP question w r).1.success = true := by
  have hlen' : ¬(question.length < 1 ∨ question.length > 1000) := by omega
  have hsp : ∃ tr, searchPhase question w = (.ok (b :: rest), tr) := by
    rcases hcase with h | ⟨hempty, hcor, resp2, hs2, h2⟩
    · have hres := searchPhase_direct question w resp hs hok (by rw [h, hw]; exact List.cons_ne_nil b rest)
      rw [h, hw] at hres
      exact ⟨_, hres⟩
    · have hres := searchPhase_fallback question w resp resp2 hs hok hempty hcor hs2
      rw [h2, hw] at hres
      exact ⟨_, hres⟩
  obtain ⟨tr, hsp⟩ := hsp
  rw [processQuestionP_okPath question w r hlen' b rest tr hsp cresp hc hok2]
  exact ⟨by rw [hw], rfl⟩

/-- Witness for C3: an oracle with two ranked hits whose content fetch
succeeds; the sources are the two hit titles in rank order. -/
theorem processQuestion_sourceTitles_witness :
    (processQuestionP "tell me about alpha" wikiTwoHits rand0).1.sources =
      some ([hitAlpha, hitBeta].map (fun hit => hit.title)) ∧
    (processQuestionP "tell me about alpha" wikiTwoHits rand0).1.success = true :=
  processQuestion_sourceTitles "tell me about alpha" wikiTwoHits rand0 (by decide)
    ⟨true, 200, [hitAlpha, hitBeta]⟩ rfl rfl [hitAlpha, hitBeta] hitAlpha [hitBeta] rfl
    (Or.inl rfl) ⟨true, 200, [pageAlpha]⟩ rfl rfl

/-- C4 counterexample: when the content fetch resolves with the sentinel
missing page (page id -1, no extract), the process endpoint does not abort
with success=false; it answers success=true with no error and with the
search titles as sources. -/
theorem processQuestion_sentinel_success :
    (processQuestionP "tell me about alpha" wikiSentinel rand0).1.success = true ∧
    (processQuestionP "tell me about alpha" wikiSentinel rand0).1.error = none ∧
    (processQuestionP "tell me about alpha" wikiSentinel rand0).1.sources = some ["Alpha"] := by
  exact ⟨by decide, by decide, by decide⟩

/-- C4 amended: a thrown fetch or a non-success status of the original
search aborts the pipeline with success=false carrying the error message
(first conjunct, through the search phase), and so does a thrown or
non-success-status content fetch (second and third conjuncts); but the
not-found sentinel (a missing page object or one without extract, such as
the page id -1 response) does not abort: the endpoint answers
success=true with the no-result text and no error (fourth conjunct). -/
theorem processQuestion_failurePropagation (question : String) (w : Wiki) (r : RandSrc)
    (hlen : 1 ≤ question.length ∧ question.length ≤ 1000) :
    (∀ e tr, searchPhase question w = (.error e, tr) →
      (processQuestionP question w r).1 = ⟨false, none, none, some e⟩) ∧
    (∀ b rest tr e, searchPhase question w = (.ok (b :: rest), tr) →
      w.contentFetch b.title = .error e →
      (processQuestionP question w r).1 = ⟨false, none, none, some e⟩) ∧
    (∀ b rest tr cresp, searchPhase question w = (.ok (b :: rest), tr) →
      w.contentFetch b.title = .ok cresp → cresp.ok = false →
      (processQuestionP question w r).1 =
        ⟨false, none, none, some ("Wikipedia content fetch failed: " ++ toString cresp.status)⟩) ∧
    (∀ b rest tr cresp, searchPhase question w = (.ok (b :: rest), tr) →
      w.contentFetch b.title = .ok cresp → cresp.ok = true →
      (cresp.pages.head?.bind (fun p => p.extract)).getD "" = "" →
      (processQuestionP question w r).1.success = true ∧
      (processQuestionP question w r).1.response = some (generateNoResultResponse question r) ∧
      (processQuestionP question w r).1.error = none) := by
  have hlen' : ¬(question.length < 1 ∨ question.length > 1000) := by omega
  refine ⟨?_, ?_, ?_, ?_⟩
  · intro e tr hsp
    rw [processQuestionP_searchError question w r hlen' e tr hsp]
  · intro b rest tr e hsp hc
    rw [processQuestionP_contentError question w r hlen' b rest tr hsp e hc]
  · intro b rest tr cresp hsp hc hok
    rw [processQuestionP_contentBad question w r hlen' b rest tr hsp cresp hc hok]
  · intro b rest tr cresp hsp hc hok hmiss
    rw [processQuestionP_okPath question w r hlen' b rest tr hsp cresp hc hok]
    rw [genP_noExtract question cresp.pages.head? (b :: rest) r hmiss]
    exact ⟨rfl, rfl, rfl⟩

/-- Witness for C4 amended: concrete oracles exercising the search throw,
the content throw, the content bad status, and the sentinel page cases. -/
theorem processQuestion_failurePropagation_witness :
    (processQuestionP "tell me about alpha" wikiSearchThrows rand0).1 =
      ⟨false, none, none, some "search boom"⟩ ∧
    (processQuestionP "tell me about alpha" wikiContentThrows rand0).1 =
      ⟨false, none, none, some "content boom"⟩ ∧
    (processQuestionP "tell me about alpha" wikiContentBadStatus rand0).1 =
      ⟨false, none, none, some ("Wikipedia content fetch failed: " ++ toString (500 : Nat))⟩ ∧
    (processQuestionP "tell me about alpha" wikiSentinel rand0).1.success = true :=
  ⟨(processQuestion_failurePropagation "tell me about alpha" wikiSearchThrows rand0 (by decide)).1
     "search boom" [NetCall.search "tell me about alpha"] rfl,
   (processQuestion_failurePropagation "tell me about alpha" wikiContentThrows rand0 (by decide)).2.1
     hitAlpha [] [NetCall.search "tell me about alpha"] "content boom" rfl rfl,
   (processQuestion_failurePropagation "tell me about alpha" wikiContentBadStatus rand0 (by decide)).2.2.1
     hitAlpha [] [NetCall.search "tell me about alpha"] ⟨false, 500, []⟩ rfl rfl rfl,
   ((processQuestion_failurePropagation "tell me about alpha" wikiSentinel rand0 (by decide)).2.2.2
     hitAlpha [] [NetCall.search "tell me about alpha"] ⟨true, 200, [pageMissing]⟩ rfl rfl rfl rfl).1⟩

/-- C5 counterexample: a synthesized answer built from the two-candidate
list Alpha, Beta with a fetched article. Beta is a provided source title
and the synthesis path ran (the ghost passage is present), Beta occurs in
the output, yet after its first occurrence there is no further Beta and no
closing bracket at all, so no markdown-link bullet text contains Beta: the
output does not have one bullet per provided source title. -/
theorem synthesizer_missing_bullet :
    ([hitAlpha, hitBeta].map (fun hit => hit.title) = ["Alpha", "Beta"]) ∧
    (generateWikipediaResponseP "tell me about alpha" (some pageAlpha) [hitAlpha, hitBeta] rand0).2.isSome = true ∧
    (afterFirst "Beta".data (generateWikipediaResponse "tell me about alpha" (some pageAlpha) [hitAlpha, hitBeta] rand0).data).isSome = true ∧
    isInfixChars "]".data ((afterFirst "Beta".data (generateWikipediaResponse "tell me about alpha" (some pageAlpha) [hitAlpha, hitBeta] rand0).data).getD [Char.ofNat 93]) = false ∧
    isInfixChars "Beta".data ((afterFirst "Beta".data (generateWikipediaResponse "tell me about alpha" (some pageAlpha) [hitAlpha, hitBeta] rand0).data).getD [Char.ofNat 93]) = false := by
  exact ⟨rfl, by decide, by decide, by decide, by decide⟩

/-- C5 amended: every synthesized answer built from a fetched article with
a non-empty extract contains the sources header followed by exactly the
one bullet of the source, a markdown link whose text contains the fetched
article title and whose target is the article URL; further candidate
titles appear only in the related-topics line. -/
theorem synthesizer_sources_section (question : String) (a : Page)
    (searchResults : List SearchHit) (r : RandSrc) (hx : ¬a.extract.getD "" = "") :
    containsSubstr (generateWikipediaResponse question (some a) searchResults r)
      ("**📚 Sources & Further Reading:**\n" ++
        ("• [" ++ a.title ++ " on Wikipedia](" ++ articleUrl a ++ ")")) = true := by
  unfold generateWikipediaResponse generateWikipediaResponseP
  dsimp only
  rw [if_neg hx]
  exact containsSubstr_middle _ _ _

/-- Witness for C5 amended at the concrete Alpha article. -/
theorem synthesizer_sources_section_witness :
    containsSubstr (generateWikipediaResponse "tell me about alpha" (some pageAlpha) [hitAlpha, hitBeta] rand0)
      ("**📚 Sources & Further Reading:**\n" ++
        ("• [" ++ pageAlpha.title ++ " on Wikipedia](" ++ articleUrl pageAlpha ++ ")")) = true :=
  synthesizer_sources_section "tell me about alpha" pageAlpha [hitAlpha, hitBeta] rand0 (by decide)

/-- C6: when no paragraph of the filtered extract contains any question
token, the Relevance Extractor returns the first two paragraphs in
original order joined by a blank line, regardless of the sorting. -/
theorem extractRelevantContent_fallback (extract question : String)
    (h : ∀ p ∈ paragraphsOf extract, ∀ qw ∈ queryWordsOf question,
      containsSubstr (strToLower p) qw = false) :
    extractRelevantContent (paragraphsOf extract) question =
      strJoin "\n\n" ((paragraphsOf extract).take 2) := by
  have hscore : ∀ p ∈ paragraphsOf extract, paragraphScore (queryWordsOf question) p = 0 := by
    intro p hp
    exact foldl_score_const (strToLower p) (queryWordsOf question) 0 (h p hp)
  unfold extractRelevantContent
  cases hsel : (sortDesc ((paragraphsOf extract).map
      (fun paragraph => (strTrim paragraph, paragraphScore (queryWordsOf question) paragraph)))).take 3 with
  | nil => simp [hsel]
  | cons top rests =>
    have htop : top ∈ (sortDesc ((paragraphsOf extract).map
        (fun paragraph => (strTrim paragraph, paragraphScore (queryWordsOf question) paragraph)))).take 3 := by
      rw [hsel]
      exact List.mem_cons_self top rests
    have hmem := mem_sortDesc top _ (List.mem_of_mem_take htop)
    obtain ⟨p, hp, hpe⟩ := List.mem_map.mp hmem
    have htop0 : top.2 = 0 := by
      rw [← hpe]
      exact hscore p hp
    simp [hsel, htop0]

/-- Witness for C6 at a two-paragraph extract sharing no token with the
question. -/
theorem extractRelevantContent_fallback_witness :
    extractRelevantContent
      (paragraphsOf "This paragraph speaks of many things and is quite long indeed okay.\nAnother paragraph that also speaks of several things at length okay.")
      "weather patterns" =
    strJoin "\n\n" ((paragraphsOf "This paragraph speaks of many things and is quite long indeed okay.\nAnother paragraph that also speaks of several things at length okay.").take 2) :=
  extractRelevantContent_fallback
    "This paragraph speaks of many things and is quite long indeed okay.\nAnother paragraph that also speaks of several things at length okay."
    "weather patterns" (by decide)

/-- C9: with the external service fixed as a deterministic oracle, two
runs of the process endpoint that differ only in their random source
produce the same sources and select the same passage from the article
extract (the ghost observation); only the synthesized phrasing may
differ. -/
theorem processQuestion_random_independent (question : String) (w : Wiki) (r1 r2 : RandSrc) :
    (processQuestionP question w r1).1.sources = (processQuestionP question w r2).1.sources ∧
    (processQuestionP question w r1).2.2 = (processQuestionP question w r2).2.2 := by
  by_cases hlen : question.length < 1 ∨ question.length > 1000
  · unfold processQuestionP
    rw [if_pos hlen, if_pos hlen]
    exact ⟨rfl, rfl⟩
  · rcases hsp : searchPhase question w with ⟨exc, tr⟩
    cases exc with
    | error e =>
      rw [processQuestionP_searchError question w r1 hlen e tr hsp,
        processQuestionP_searchError question w r2 hlen e tr hsp]
      exact ⟨rfl, rfl⟩
    | ok results =>
      cases results with
      | nil =>
        rw [processQuestionP_noResults question w r1 hlen tr hsp,
          processQuestionP_noResults question w r2 hlen tr hsp]
        exact ⟨rfl, rfl⟩
      | cons b rest =>
        rcases hc : w.contentFetch b.title with e | cresp
        · rw [processQuestionP_contentError question w r1 hlen b rest tr hsp e hc,
            processQuestionP_contentError question w r2 hlen b rest tr hsp e hc]
          exact ⟨rfl, rfl⟩
        · cases hok : cresp.ok with
          | false =>
            rw [processQuestionP_contentBad question w r1 hlen b rest tr hsp cresp hc hok,
              processQuestionP_contentBad question w r2 hlen b rest tr hsp cresp hc hok]
            exact ⟨rfl, rfl⟩
          | true =>
            rw [processQuestionP_okPath question w r1 hlen b rest tr hsp cresp hc hok,
              processQuestionP_okPath question w r2 hlen b rest tr hsp cresp hc hok]
            refine ⟨rfl, ?_⟩
            rw [genP_snd question cresp.pages.head? (b :: rest) r1,
              genP_snd question cresp.pages.head? (b :: rest) r2]
